import Mathlib

/-!
Verification of the django-task-manager backend against its specification.

The development shallowly embeds the request handlers of `src/tasks/views.py`
together with the data model of `src/tasks/models.py` as pure Lean functions.
Database state is an explicit value of type `Db` (the two relational tables);
the outside world seen by one request (configured API key, outcome of the one
outbound HTTP call, outcome of the one database write, the clock) is an
explicit environment record, and each handler is a function from environment
and database state to an HTTP status, a response body and the new database
state.  Machine floats of the source are idealised as rationals.
-/

namespace TaskMan

/-- Row of the `Task` table (`src/tasks/models.py`, class `Task`).
`created_at` / `updated_at` / `due_date` timestamps are abstract `Nat` instants. -/
structure Task where
  id : Nat
  title : String
  description : String
  priority : String
  status : String
  created_at : Nat
  updated_at : Nat
  due_date : Option Nat
  user : Nat
  deriving DecidableEq

/-- Row of the `WeatherLog` table (`src/tasks/models.py`, class `WeatherLog`). -/
structure WeatherLog where
  id : Nat
  city : String
  temperature : ℚ
  description : String
  humidity : ℤ
  timestamp : Nat
  deriving DecidableEq

/-- The persistent state: the two relational tables of the data model. -/
structure Db where
  tasks : List Task
  weather_logs : List WeatherLog
  deriving DecidableEq

/-- Fields extracted from the upstream JSON body on the HTTP-200 path of
`get_weather` (`data['name']`, `data['main']['temp']`, ..., with the
`.get`-accessed ones optional). -/
structure WeatherData where
  name : String
  temp : ℚ
  weather_desc : String
  humidity : ℤ
  feels_like : Option ℚ
  pressure : Option ℤ
  visibility : Option ℤ
  wind_speed : Option ℚ
  country : Option String
  deriving DecidableEq

/-- An upstream HTTP response as `get_weather` consumes it: the status code,
the raw text, and the result of `response.json()` together with the keyed
field accesses (`none` models a body on which that extraction raises). -/
structure HttpResp where
  status_code : Nat
  text : String
  jsonData : Option WeatherData
  deriving DecidableEq

/-- Outcome of the one `requests.get` call made by `get_weather`: a response,
or one of the exceptions the handler distinguishes. -/
inductive Fetch where
  | response (r : HttpResp)
  | timeout
  | connectionError
  | otherExc (msg : String)
  deriving DecidableEq

/-- Outcome of the one `WeatherLog.objects.create` call: success, or a raised
database error carrying its message text. -/
inductive DbWrite where
  | ok
  | err (msg : String)
  deriving DecidableEq

/-- Environment of one `get_weather` request: result of `config('WEATHER_API_KEY')`
(`.error` = the config lookup raised), the outcome of the outbound call, the
outcome of the database write, the id and `auto_now_add` timestamp the store
would assign to a created row, and the value of `timezone.now()`. -/
structure WeatherEnv where
  apiKey : Except String String
  fetch : Fetch
  dbWrite : DbWrite
  nextId : Nat
  logTs : Nat
  now : Nat

/-- JSON body of a `get_weather` response, flattened: every key the handler
ever emits, absent keys being `none` (`debug_text` is the string-valued
`debug_info` of the failure branches; the `debug_` fields are the keys of the
`debug_info` object of the success branches). -/
structure WeatherBody where
  error : Option String := none
  city : Option String := none
  temperature : Option ℚ := none
  description : Option String := none
  humidity : Option ℤ := none
  logged_at : Option Nat := none
  feels_like : Option ℚ := none
  pressure : Option ℤ := none
  visibility : Option ℤ := none
  wind_speed : Option ℚ := none
  country : Option String := none
  suggestions : List String := []
  debug_api_status : Option String := none
  debug_stored_in_db : Option Bool := none
  debug_db_error : Option String := none
  debug_text : Option String := none
  deriving DecidableEq

/-- What one `get_weather` request produced: HTTP status, body, how many
outbound calls to the upstream API were made, and the new database state. -/
structure WeatherStep where
  status : Nat
  body : WeatherBody
  externalCalls : Nat
  db : Db

/-- Python string slicing `t[:n]` (by code points). -/
def pyTruncate (t : String) (n : Nat) : String := String.mk (t.data.take n)

/-- The `get_weather` view (`src/tasks/views.py`), one request with path
parameter `city`, environment `env`, against database state `db`. -/
def get_weather (city : String) (env : WeatherEnv) (db : Db) : WeatherStep :=
  match env.apiKey with
  | .error msg =>
      ⟨500, { error := some "Weather API key not configured",
              debug_text := some msg }, 0, db⟩
  | .ok key =>
      if key = "" then
        ⟨500, { error := some "Weather API key not configured",
                debug_text :=
                  some "WEATHER_API_KEY environment variable is empty or not set" },
         0, db⟩
      else
        match env.fetch with
        | .timeout =>
            ⟨504, { error := some "Weather API request timed out",
                    debug_text :=
                      some "The weather service is taking too long to respond" },
             1, db⟩
        | .connectionError =>
            ⟨503, { error := some "Cannot connect to weather API",
                    debug_text := some "Check your internet connection" }, 1, db⟩
        | .otherExc msg =>
            ⟨500, { error := some "Unexpected error occurred",
                    debug_text := some msg }, 1, db⟩
        | .response r =>
            if r.status_code = 200 then
              match r.jsonData with
              | none =>
                  ⟨500, { error := some "Unexpected error occurred",
                          debug_text := some "upstream body not in expected shape" },
                   1, db⟩
              | some d =>
                  match env.dbWrite with
                  | .ok =>
                      ⟨200, { city := some d.name,
                              temperature := some d.temp,
                              description := some d.weather_desc,
                              humidity := some d.humidity,
                              logged_at := some env.logTs,
                              feels_like := d.feels_like,
                              pressure := d.pressure,
                              visibility := d.visibility,
                              wind_speed := d.wind_speed,
                              country := d.country,
                              debug_api_status := some "success",
                              debug_stored_in_db := some true },
                       1,
                       ⟨db.tasks, db.weather_logs ++
                          [⟨env.nextId, d.name, d.temp, d.weather_desc,
                            d.humidity, env.logTs⟩]⟩⟩
                  | .err msg =>
                      ⟨200, { city := some d.name,
                              temperature := some d.temp,
                              description := some d.weather_desc,
                              humidity := some d.humidity,
                              logged_at := some env.now,
                              feels_like := d.feels_like,
                              pressure := d.pressure,
                              visibility := d.visibility,
                              wind_speed := d.wind_speed,
                              country := d.country,
                              debug_api_status := some "success",
                              debug_stored_in_db := some false,
                              debug_db_error := some msg }, 1, db⟩
            else if r.status_code = 401 then
              ⟨401, { error := some "Invalid weather API key",
                      debug_text := some "Check your WEATHER_API_KEY in .env file" },
               1, db⟩
            else if r.status_code = 404 then
              ⟨404, { error := some ("City '" ++ city ++ "' not found"),
                      debug_text :=
                        some "Try using the exact city name (e.g., \"Mumbai\" instead of \"mumbai\")",
                      suggestions :=
                        ["Mumbai", "Delhi", "Bangalore", "Chennai", "Kolkata", "Pune"] },
               1, db⟩
            else
              ⟨r.status_code,
               { error := some ("Weather API returned status " ++
                                toString r.status_code),
                 debug_text :=
                   some (if r.text = "" then "No response content"
                         else pyTruncate r.text 200) }, 1, db⟩

/-- C3: with the weather API key absent (config lookup raises) or configured
but empty, `get_weather` answers HTTP 500 with an `error` field reporting the
configuration problem, makes zero outbound calls to the upstream API, and
leaves the database untouched. -/
theorem weather_missing_key (city cfgmsg : String) (f : Fetch) (w : DbWrite)
    (nid lts now : Nat) (db : Db) :
    ((get_weather city ⟨.error cfgmsg, f, w, nid, lts, now⟩ db).status = 500 ∧
     (get_weather city ⟨.error cfgmsg, f, w, nid, lts, now⟩ db).body.error =
       some "Weather API key not configured" ∧
     (get_weather city ⟨.error cfgmsg, f, w, nid, lts, now⟩ db).externalCalls = 0 ∧
     (get_weather city ⟨.error cfgmsg, f, w, nid, lts, now⟩ db).db = db) ∧
    ((get_weather city ⟨.ok "", f, w, nid, lts, now⟩ db).status = 500 ∧
     (get_weather city ⟨.ok "", f, w, nid, lts, now⟩ db).body.error =
       some "Weather API key not configured" ∧
     (get_weather city ⟨.ok "", f, w, nid, lts, now⟩ db).externalCalls = 0 ∧
     (get_weather city ⟨.ok "", f, w, nid, lts, now⟩ db).db = db) := by
  refine ⟨⟨rfl, rfl, rfl, rfl⟩, ?_⟩
  simp [get_weather]

/-- C1: upstream HTTP 200 with a database write that raises: the request still
succeeds with HTTP 200, the body carries the fetched city, temperature,
description and humidity, `logged_at` is `timezone.now()` at handling (not a
stored timestamp), the failure surfaces only as `debug_info.stored_in_db = false`
plus `debug_info.db_error` with the error text, and the database is unchanged. -/
theorem weather_db_failure (city key emsg tx : String) (hk : key ≠ "")
    (d : WeatherData) (nid lts now : Nat) (db : Db) :
    (get_weather city ⟨.ok key, .response ⟨200, tx, some d⟩, .err emsg, nid, lts, now⟩ db).status
        = 200 ∧
    (get_weather city ⟨.ok key, .response ⟨200, tx, some d⟩, .err emsg, nid, lts, now⟩ db).body =
      { city := some d.name, temperature := some d.temp,
        description := some d.weather_desc, humidity := some d.humidity,
        logged_at := some now, feels_like := d.feels_like,
        pressure := d.pressure, visibility := d.visibility,
        wind_speed := d.wind_speed, country := d.country,
        debug_api_status := some "success",
        debug_stored_in_db := some false, debug_db_error := some emsg } ∧
    (get_weather city ⟨.ok key, .response ⟨200, tx, some d⟩, .err emsg, nid, lts, now⟩ db).body.error
        = none ∧
    (get_weather city ⟨.ok key, .response ⟨200, tx, some d⟩, .err emsg, nid, lts, now⟩ db).db
        = db := by
  simp [get_weather, hk]

/-- C1 witness at a concrete request. -/
theorem weather_db_failure_w :
    (get_weather "Mumbai"
        ⟨.ok "k", .response ⟨200, "", some ⟨"Mumbai", 25, "haze", 70, none, none, none, none, none⟩⟩,
         .err "disk full", 7, 11, 13⟩ ⟨[], []⟩).status = 200 :=
  (weather_db_failure "Mumbai" "k" "disk full" "" (by decide)
    ⟨"Mumbai", 25, "haze", 70, none, none, none, none, none⟩ 7 11 13 ⟨[], []⟩).1

/-- C2: upstream HTTP 200 with a successful database write: the body carries
the parsed city, temperature and humidity and `debug_info.stored_in_db = true`,
and exactly one new `WeatherLog` row with that same city, temperature,
description and humidity is appended to the weather-log table while the task
table (and every pre-existing row of both tables) is left untouched. -/
theorem weather_success_persists (city key tx : String) (hk : key ≠ "")
    (d : WeatherData) (nid lts now : Nat) (db : Db) :
    (get_weather city ⟨.ok key, .response ⟨200, tx, some d⟩, .ok, nid, lts, now⟩ db).status
        = 200 ∧
    (get_weather city ⟨.ok key, .response ⟨200, tx, some d⟩, .ok, nid, lts, now⟩ db).body.city
        = some d.name ∧
    (get_weather city ⟨.ok key, .response ⟨200, tx, some d⟩, .ok, nid, lts, now⟩ db).body.temperature
        = some d.temp ∧
    (get_weather city ⟨.ok key, .response ⟨200, tx, some d⟩, .ok, nid, lts, now⟩ db).body.humidity
        = some d.humidity ∧
    (get_weather city ⟨.ok key, .response ⟨200, tx, some d⟩, .ok, nid, lts, now⟩ db).body.debug_stored_in_db
        = some true ∧
    (get_weather city ⟨.ok key, .response ⟨200, tx, some d⟩, .ok, nid, lts, now⟩ db).db.tasks
        = db.tasks ∧
    (get_weather city ⟨.ok key, .response ⟨200, tx, some d⟩, .ok, nid, lts, now⟩ db).db.weather_logs
        = db.weather_logs ++ [⟨nid, d.name, d.temp, d.weather_desc, d.humidity, lts⟩] := by
  simp [get_weather, hk]

/-- C2 witness at a concrete request. -/
theorem weather_success_persists_w :
    (get_weather "Delhi"
        ⟨.ok "k", .response ⟨200, "", some ⟨"Delhi", 31, "clear sky", 40, none, none, none, none, none⟩⟩,
         .ok, 7, 11, 13⟩ ⟨[], []⟩).db.weather_logs =
      [⟨7, "Delhi", 31, "clear sky", 40, 11⟩] :=
  (weather_success_persists "Delhi" "k" "" (by decide)
    ⟨"Delhi", 31, "clear sky", 40, none, none, none, none, none⟩ 7 11 13 ⟨[], []⟩).2.2.2.2.2.2

/-- C4: with a valid key, every non-200 upstream outcome maps as specified:
every such branch has an `error` field; upstream 401 gives HTTP 401; upstream
404 gives HTTP 404 with a non-empty suggestions list; any other upstream
status is propagated unchanged with a `debug_info` excerpt that is a prefix of
the raw upstream text of at most 200 characters (or a placeholder when that
text is empty); a timeout gives HTTP 504 and a connection failure HTTP 503. -/
theorem weather_upstream_mapping (city key : String) (hk : key ≠ "")
    (w : DbWrite) (nid lts now : Nat) (db : Db) :
    (∀ (sc : Nat) (tx : String) (jd : Option WeatherData), sc ≠ 200 →
      ((get_weather city ⟨.ok key, .response ⟨sc, tx, jd⟩, w, nid, lts, now⟩ db).body.error.isSome
          = true ∧
       (sc = 401 →
         (get_weather city ⟨.ok key, .response ⟨sc, tx, jd⟩, w, nid, lts, now⟩ db).status = 401) ∧
       (sc = 404 →
         (get_weather city ⟨.ok key, .response ⟨sc, tx, jd⟩, w, nid, lts, now⟩ db).status = 404 ∧
         (get_weather city ⟨.ok key, .response ⟨sc, tx, jd⟩, w, nid, lts, now⟩ db).body.suggestions
             ≠ []) ∧
       (sc ≠ 401 → sc ≠ 404 →
         (get_weather city ⟨.ok key, .response ⟨sc, tx, jd⟩, w, nid, lts, now⟩ db).status = sc ∧
         (get_weather city ⟨.ok key, .response ⟨sc, tx, jd⟩, w, nid, lts, now⟩ db).body.debug_text
             = some (if tx = "" then "No response content" else pyTruncate tx 200) ∧
         (pyTruncate tx 200).data <+: tx.data ∧
         (pyTruncate tx 200).data.length ≤ 200))) ∧
    ((get_weather city ⟨.ok key, .timeout, w, nid, lts, now⟩ db).status = 504 ∧
     (get_weather city ⟨.ok key, .timeout, w, nid, lts, now⟩ db).body.error.isSome = true) ∧
    ((get_weather city ⟨.ok key, .connectionError, w, nid, lts, now⟩ db).status = 503 ∧
     (get_weather city ⟨.ok key, .connectionError, w, nid, lts, now⟩ db).body.error.isSome = true) := by
  refine ⟨?_, by simp [get_weather, hk], by simp [get_weather, hk]⟩
  intro sc tx jd hsc
  by_cases h1 : sc = 401
  · subst h1
    refine ⟨by simp [get_weather, hk], fun _ => by simp [get_weather, hk], ?_, ?_⟩
    · intro h; exact absurd h (by decide)
    · intro h _; exact absurd rfl h
  · by_cases h4 : sc = 404
    · subst h4
      refine ⟨by simp [get_weather, hk], fun h => absurd h (by decide),
        fun _ => by simp [get_weather, hk], fun _ h => absurd rfl h⟩
    · refine ⟨by simp [get_weather, hk, hsc, h1, h4],
        fun h => absurd h h1, fun h => absurd h h4, fun _ _ => ?_⟩
      refine ⟨by simp [get_weather, hk, hsc, h1, h4],
        by simp [get_weather, hk, hsc, h1, h4], List.take_prefix 200 tx.data, ?_⟩
      simp [pyTruncate]

/-- C4 witness at concrete requests: a 418 upstream response propagates as 418,
and the timeout and connection branches give 504 and 503. -/
theorem weather_upstream_mapping_w :
    (get_weather "Pune" ⟨.ok "k", .response ⟨418, "teapot", none⟩, .ok, 1, 2, 3⟩ ⟨[], []⟩).status
        = 418 ∧
    (get_weather "Pune" ⟨.ok "k", .timeout, .ok, 1, 2, 3⟩ ⟨[], []⟩).status = 504 ∧
    (get_weather "Pune" ⟨.ok "k", .connectionError, .ok, 1, 2, 3⟩ ⟨[], []⟩).status = 503 := by
  have h := weather_upstream_mapping "Pune" "k" (by decide) .ok 1 2 3 ⟨[], []⟩
  exact ⟨((h.1 418 "teapot" none (by decide)).2.2.2 (by decide) (by decide)).1,
    h.2.1.1, h.2.2.1⟩

/-- Rounding to two decimal places, modelling Python's `round(x, 2)` as used on
the completion rate (idealised over rationals; half-values round up, whereas
Python rounds the nearest binary float half-to-even — the two agree wherever
the source and spec formulas agree). -/
def round2 (q : ℚ) : ℚ := (⌊q * 100 + 1 / 2⌋ : ℚ) / 100

/-- The `Task.objects.filter(status=s).count()` queries of `task_analytics`. -/
def statusCount (tasks : List Task) (s : String) : Nat :=
  (tasks.filter (fun t => t.status == s)).length

/-- The `Task.objects.values('priority').annotate(count=Count('priority'))`
query of `task_analytics`, modelled at its intended semantics: one pair per
distinct priority value with the number of tasks holding it. -/
def priorityStats (tasks : List Task) : List (String × Nat) :=
  ((tasks.map (fun t => t.priority)).eraseDups).map
    (fun p => (p, (tasks.filter (fun t => t.priority == p)).length))

/-- One entry of the `recent_tasks` list of the analytics response. -/
structure RecentTask where
  id : Nat
  title : String
  status : String
  priority : String
  created_at : Nat
  deriving DecidableEq

/-- The `Task.objects.order_by('-created_at')[:5]` query of `task_analytics`,
projected onto the emitted fields. -/
def recentTasks (tasks : List Task) : List RecentTask :=
  ((tasks.mergeSort (fun a b => decide (b.created_at ≤ a.created_at))).take 5).map
    (fun t => ⟨t.id, t.title, t.status, t.priority, t.created_at⟩)

/-- JSON body of a `task_analytics` response (the `debug_` fields are the keys
of its `debug_info` object). -/
structure AnalyticsResult where
  status : Nat
  total_tasks : Nat
  completed_tasks : Nat
  pending_tasks : Nat
  in_progress_tasks : Nat
  completion_rate : ℚ
  priority_distribution : List (String × Nat)
  recent_tasks : List RecentTask
  chart_image : Option String
  generated_at : Nat
  debug_chart_generated : Bool
  debug_has_tasks : Bool
  debug_recent_tasks_count : Nat
  deriving DecidableEq

/-- The `task_analytics` view (`src/tasks/views.py`).  `render` is the outcome
of the matplotlib pipeline were it run: `some img` is the base64 chart string
it would produce, `none` means it raises; the view consults it only when the
store holds at least one task.  `now` is `timezone.now()`. -/
def task_analytics (render : Option String) (now : Nat) (db : Db) : AnalyticsResult :=
  let total := db.tasks.length
  let completed := statusCount db.tasks "completed"
  let recent := recentTasks db.tasks
  let chart : Option String := if total > 0 then render else none
  { status := 200
    total_tasks := total
    completed_tasks := completed
    pending_tasks := statusCount db.tasks "pending"
    in_progress_tasks := statusCount db.tasks "in_progress"
    completion_rate :=
      if total > 0 then round2 ((completed : ℚ) / (total : ℚ) * 100) else 0
    priority_distribution := priorityStats db.tasks
    recent_tasks := recent
    chart_image := chart
    generated_at := now
    debug_chart_generated := chart.isSome
    debug_has_tasks := decide (total > 0)
    debug_recent_tasks_count := recent.length }

/-- C5: with zero stored tasks the analytics response has completion rate 0 and
no chart (whatever the renderer would have done); with N > 0 stored tasks of
which C are completed it has completion rate round2(C / N * 100). -/
theorem analytics_completion (render : Option String) (now : Nat) (db : Db) :
    (db.tasks.length = 0 →
       (task_analytics render now db).completion_rate = 0 ∧
       (task_analytics render now db).chart_image = none) ∧
    (0 < db.tasks.length →
       (task_analytics render now db).completion_rate =
         round2 ((((db.tasks.filter (fun t => t.status == "completed")).length : ℚ) /
            (db.tasks.length : ℚ)) * 100)) := by
  constructor
  · intro h
    constructor <;> simp [task_analytics, h]
  · intro h
    simp [task_analytics, statusCount, h, div_mul_eq_mul_div]

/-- C5 witness: the empty store, and a two-task store with one completed task
whose completion rate evaluates to 50. -/
theorem analytics_completion_w :
    ((task_analytics none 0 ⟨[], []⟩).completion_rate = 0 ∧
     (task_analytics none 0 ⟨[], []⟩).chart_image = none) ∧
    (task_analytics none 0
        ⟨[⟨1, "a", "", "medium", "completed", 0, 0, none, 0⟩,
          ⟨2, "b", "", "medium", "pending", 0, 0, none, 0⟩], []⟩).completion_rate = 50 := by
  refine ⟨(analytics_completion none 0 ⟨[], []⟩).1 rfl, ?_⟩
  have h := (analytics_completion none 0
      ⟨[⟨1, "a", "", "medium", "completed", 0, 0, none, 0⟩,
        ⟨2, "b", "", "medium", "pending", 0, 0, none, 0⟩], []⟩).2 (by decide)
  rw [h]
  norm_num [round2, List.filter,
    show (("pending" : String) == "completed") = false from by decide]

/-- C6: a raising chart renderer changes nothing in the analytics response but
the chart: every statistics field equals its value under a succeeding renderer,
the status is still the success status, and `chart_image` is null. -/
theorem analytics_chart_frame (now : Nat) (img : String) (db : Db) :
    (task_analytics none now db).status = 200 ∧
    (task_analytics none now db).chart_image = none ∧
    (task_analytics none now db).total_tasks = (task_analytics (some img) now db).total_tasks ∧
    (task_analytics none now db).completed_tasks = (task_analytics (some img) now db).completed_tasks ∧
    (task_analytics none now db).pending_tasks = (task_analytics (some img) now db).pending_tasks ∧
    (task_analytics none now db).in_progress_tasks = (task_analytics (some img) now db).in_progress_tasks ∧
    (task_analytics none now db).completion_rate = (task_analytics (some img) now db).completion_rate ∧
    (task_analytics none now db).priority_distribution = (task_analytics (some img) now db).priority_distribution ∧
    (task_analytics none now db).recent_tasks = (task_analytics (some img) now db).recent_tasks ∧
    (task_analytics none now db).generated_at = (task_analytics (some img) now db).generated_at := by
  refine ⟨rfl, ?_, rfl, rfl, rfl, rfl, rfl, rfl, rfl, rfl⟩
  simp [task_analytics]

/-- Python truthiness of `request.query_params.get(name, None)`: `None` and
the empty string are falsy. -/
def pyTruthy : Option String → Bool
  | none => false
  | some s => !(s == "")

/-- `TaskViewSet.get_queryset` (`src/tasks/views.py`): the task list, filtered
by the `status` and `priority` query parameters when each is truthy. -/
def get_queryset (db : Db) (status_q priority_q : Option String) : List Task :=
  let qs := db.tasks
  let qs := if pyTruthy status_q then qs.filter (fun t => t.status == status_q.getD "") else qs
  if pyTruthy priority_q then qs.filter (fun t => t.priority == priority_q.getD "") else qs

/-- C7: listing with `status=completed` returns exactly the tasks whose stored
status equals `completed`, and adding `priority=high` returns exactly the
intersection: status `completed` and priority `high`. -/
theorem task_list_filters (db : Db) :
    get_queryset db (some "completed") none
      = db.tasks.filter (fun t => t.status == "completed") ∧
    get_queryset db (some "completed") (some "high")
      = db.tasks.filter (fun t => t.status == "completed" && t.priority == "high") ∧
    (∀ t : Task, t ∈ get_queryset db (some "completed") (some "high") ↔
       t ∈ db.tasks ∧ t.status = "completed" ∧ t.priority = "high") := by
  refine ⟨by simp [get_queryset, pyTruthy], ?_, ?_⟩
  · show ((db.tasks.filter fun t => t.status == "completed").filter
        fun t => t.priority == "high") = _
    rw [List.filter_filter]
    exact List.filter_congr fun a _ => Bool.and_comm _ _
  · intro t
    show t ∈ ((db.tasks.filter fun t => t.status == "completed").filter
        fun t => t.priority == "high") ↔ _
    simp [List.mem_filter, and_assoc]
    tauto

/-- C10: a `status` or `priority` query parameter present but equal to the
empty string is ignored entirely — no filter is applied for that field, so the
listing equals the one with that parameter absent, and with both parameters
blank or absent it is the unfiltered task list. -/
theorem task_list_blank_filter (db : Db) (s p : Option String) :
    get_queryset db (some "") p = get_queryset db none p ∧
    get_queryset db s (some "") = get_queryset db s none ∧
    get_queryset db (some "") none = db.tasks ∧
    get_queryset db none (some "") = db.tasks := by
  refine ⟨rfl, ?_, rfl, rfl⟩
  simp [get_queryset, pyTruthy]

/-- `PRIORITY_CHOICES` of the `Task` model (`src/tasks/models.py`). -/
def PRIORITY_CHOICES : List String := ["low", "medium", "high"]

/-- `STATUS_CHOICES` of the `Task` model (`src/tasks/models.py`). -/
def STATUS_CHOICES : List String := ["pending", "in_progress", "completed"]

/-- A task-creation request body as `TaskSerializer` accepts it
(`created_at` / `updated_at` are read-only and system-assigned). -/
structure TaskInput where
  title : String
  description : String
  priority : String
  status : String
  due_date : Option Nat
  user : Nat
  deriving DecidableEq

/-- Modelled from the spec: the validation the serialization framework (an
external collaborator, consumed via contract) derives from `TaskSerializer`
over the model's choice lists — `priority` and `status` must belong to their
enumerations, and a violation is reported naming the offending field. -/
def validate_task (inp : TaskInput) : List String :=
  (if inp.priority ∈ PRIORITY_CHOICES then [] else ["priority"]) ++
  (if inp.status ∈ STATUS_CHOICES then [] else ["status"])

/-- Outcome of a create request: the stored row, or the list of offending
fields of a validation failure. -/
inductive CreateOutcome where
  | created (t : Task)
  | invalid (fields : List String)
  deriving DecidableEq

/-- Modelled from the spec: the HTTP status the framework answers with —
201 on a successful create, a 4xx (400) validation error otherwise. -/
def createStatus : CreateOutcome → Nat
  | .created _ => 201
  | .invalid _ => 400

/-- Modelled from the spec: the create operation of `TaskViewSet` — validate
the body, and on success store a new row holding the submitted values with a
fresh id and the creation instant in `created_at` / `updated_at`. -/
def create_task (db : Db) (newId nowTs : Nat) (inp : TaskInput) : CreateOutcome × Db :=
  match validate_task inp with
  | [] =>
      let t : Task := ⟨newId, inp.title, inp.description, inp.priority, inp.status,
        nowTs, nowTs, inp.due_date, inp.user⟩
      (.created t, ⟨db.tasks ++ [t], db.weather_logs⟩)
  | errs => (.invalid errs, db)

/-- Modelled from the spec: the retrieve-by-id operation of `TaskViewSet`. -/
def retrieve_task (db : Db) (id : Nat) : Option Task :=
  db.tasks.find? (fun t => t.id == id)

/-- C8: a task created with in-range priority and status can be retrieved and
yields exactly the submitted field values; a priority or status outside its
enumeration is rejected with a 4xx outcome naming the offending field, leaving
the store unchanged. -/
theorem task_create_roundtrip (db : Db) (inp : TaskInput) (newId nowTs : Nat)
    (hid : ∀ t ∈ db.tasks, t.id ≠ newId) :
    (inp.priority ∈ PRIORITY_CHOICES → inp.status ∈ STATUS_CHOICES →
      ∃ t : Task,
        create_task db newId nowTs inp =
          (.created t, ⟨db.tasks ++ [t], db.weather_logs⟩) ∧
        retrieve_task (create_task db newId nowTs inp).2 newId = some t ∧
        createStatus (create_task db newId nowTs inp).1 = 201 ∧
        t.title = inp.title ∧ t.description = inp.description ∧
        t.priority = inp.priority ∧ t.status = inp.status ∧
        t.due_date = inp.due_date ∧ t.user = inp.user) ∧
    (inp.priority ∉ PRIORITY_CHOICES →
      (create_task db newId nowTs inp).2 = db ∧
      createStatus (create_task db newId nowTs inp).1 = 400 ∧
      ∃ errs, (create_task db newId nowTs inp).1 = .invalid errs ∧ "priority" ∈ errs) ∧
    (inp.status ∉ STATUS_CHOICES →
      (create_task db newId nowTs inp).2 = db ∧
      createStatus (create_task db newId nowTs inp).1 = 400 ∧
      ∃ errs, (create_task db newId nowTs inp).1 = .invalid errs ∧ "status" ∈ errs) := by
  refine ⟨fun hp hs => ?_, fun hp => ?_, fun hs => ?_⟩
  · refine ⟨⟨newId, inp.title, inp.description, inp.priority, inp.status,
      nowTs, nowTs, inp.due_date, inp.user⟩, ?_, ?_, ?_, rfl, rfl, rfl, rfl, rfl, rfl⟩
    · simp [create_task, validate_task, hp, hs]
    · have hnone : db.tasks.find? (fun t => t.id == newId) = none := by
        rw [List.find?_eq_none]
        intro x hx
        simpa using hid x hx
      simp [create_task, validate_task, hp, hs, retrieve_task, List.find?_append, hnone]
    · simp [create_task, validate_task, hp, hs, createStatus]
  · have : validate_task inp = ["priority"] ++
        (if inp.status ∈ STATUS_CHOICES then [] else ["status"]) := by
      simp [validate_task, hp]
    refine ⟨?_, ?_, ["priority"] ++
      (if inp.status ∈ STATUS_CHOICES then [] else ["status"]), ?_, by simp⟩
    · simp [create_task, this]
    · simp [create_task, this, createStatus]
    · simp [create_task, this]
  · have hv : validate_task inp =
        (if inp.priority ∈ PRIORITY_CHOICES then [] else ["priority"]) ++ ["status"] := by
      simp [validate_task, hs]
    by_cases hp : inp.priority ∈ PRIORITY_CHOICES
    · refine ⟨?_, ?_, ["status"], ?_, by simp⟩ <;>
        simp [create_task, hv, hp, createStatus]
    · refine ⟨?_, ?_, ["priority", "status"], ?_, by simp⟩ <;>
        simp [create_task, hv, hp, createStatus]

/-- C8 witness: against an empty store, a valid create round-trips (the stored
status is the submitted one), and a create with an out-of-range priority is
rejected with outcome status 400. -/
theorem task_create_roundtrip_w :
    (retrieve_task (create_task ⟨[], []⟩ 1 5 ⟨"t", "", "high", "pending", none, 9⟩).2 1).map
        (fun t => t.status) = some "pending" ∧
    createStatus (create_task ⟨[], []⟩ 1 5 ⟨"t", "", "urgent", "pending", none, 9⟩).1 = 400 := by
  have h := task_create_roundtrip ⟨[], []⟩ ⟨"t", "", "high", "pending", none, 9⟩ 1 5
    (by intro t ht; simp at ht)
  have h2 := task_create_roundtrip ⟨[], []⟩ ⟨"t", "", "urgent", "pending", none, 9⟩ 1 5
    (by intro t ht; simp at ht)
  obtain ⟨t, -, hret, -, -, -, -, hstat, -, -⟩ := h.1 (by decide) (by decide)
  refine ⟨?_, (h2.2.1 (by decide)).2.1⟩
  rw [hret]
  simp [hstat]

/-- Outcome of the `try` block of the `dashboard` view: the context was
computed and `render(request, 'dashboard.html', context)` answered `html`, or
some step of it raised an exception whose text is `msg`. -/
inductive DashRender where
  | rendered (html : String)
  | raised (msg : String)
  deriving DecidableEq

/-- The fallback page of the `dashboard` view up to the interpolated exception
text (the f-string literal of `src/tasks/views.py`, braces written as their
code points). -/
def dashFallbackPre : String :=
  "<!DOCTYPE html>\n<html>\n<head>\n<title>Task Manager Dashboard</title>\n<style>\n" ++
  "body \x7b font-family: Arial, sans-serif; margin: 40px; \x7d\n" ++
  ".endpoint \x7b background: #f5f5f5; padding: 10px; margin: 5px 0; border-radius: 5px; \x7d\n" ++
  ".error \x7b color: #d32f2f; background: #ffebee; padding: 10px; border-radius: 5px; \x7d\n" ++
  "</style>\n</head>\n<body>\n<h1>Task Manager Dashboard</h1>\n<div class=\"error\">\n" ++
  "<strong>Template Error:</strong> "

/-- The fallback page of the `dashboard` view after the interpolated exception
text: the endpoint listing and closing markup. -/
def dashFallbackPost : String :=
  "\n</div>\n<h2>Available API Endpoints:</h2>\n" ++
  "<div class=\"endpoint\"><a href=\"/api/tasks/\" target=\"_blank\">/api/tasks/ - Task Management</a></div>\n" ++
  "<div class=\"endpoint\"><a href=\"/api/weather/Mumbai/\" target=\"_blank\">/api/weather/Mumbai/ - Weather Data</a></div>\n" ++
  "<div class=\"endpoint\"><a href=\"/api/analytics/\" target=\"_blank\">/api/analytics/ - Task Analytics</a></div>\n" ++
  "<div class=\"endpoint\"><a href=\"/api/test/\" target=\"_blank\">/api/test/ - Test Endpoint</a></div>\n" ++
  "<div class=\"endpoint\"><a href=\"/api/debug-config/\" target=\"_blank\">/api/debug-config/ - Configuration Debug</a></div>\n" ++
  "<h2>Quick Test:</h2>\n<p>Your Django server is running correctly! All API endpoints should be working.</p>\n" ++
  "</body>\n</html>"

/-- The `dashboard` view (`src/tasks/views.py`): status and HTML body.  A
successful render is passed through; a raised exception is answered with the
static fallback page around the exception text. -/
def dashboard (r : DashRender) : Nat × String :=
  match r with
  | .rendered html => (200, html)
  | .raised msg => (200, dashFallbackPre ++ msg ++ dashFallbackPost)

/-- Whether `pat` occurs as a contiguous run inside `s` (by code points). -/
def listInfix (pat : List Char) : List Char → Bool
  | [] => pat.isEmpty
  | c :: rest => pat.isPrefixOf (c :: rest) || listInfix pat rest

/-- Whether the string `pat` occurs inside the string `s`. -/
def strContains (s pat : String) : Bool := listInfix pat.data s.data

set_option maxRecDepth 100000 in
/-- C9: whatever exception the dashboard's context computation or template
rendering raises, the view answers HTTP 200 with the static self-contained
fallback page, which contains the exception text verbatim and lists the
available API endpoints. -/
theorem dashboard_fallback (msg : String) :
    (dashboard (.raised msg)).1 = 200 ∧
    (dashboard (.raised msg)).2 = dashFallbackPre ++ msg ++ dashFallbackPost ∧
    (∃ a b : String, (dashboard (.raised msg)).2 = a ++ msg ++ b) ∧
    strContains dashFallbackPost "/api/tasks/" = true ∧
    strContains dashFallbackPost "/api/weather/Mumbai/" = true ∧
    strContains dashFallbackPost "/api/analytics/" = true ∧
    strContains dashFallbackPost "/api/test/" = true ∧
    strContains dashFallbackPost "/api/debug-config/" = true := by
  exact ⟨rfl, rfl, ⟨dashFallbackPre, dashFallbackPost, rfl⟩,
    by decide, by decide, by decide, by decide, by decide⟩

end TaskMan
